import Mathlib

/-
Verification of the dish-data-pipeline repository
(src/pipeline/data_pipeline.py and its CLI surface).

The pipeline code is shallowly embedded below: pandas dataframes become a
cols-plus-rows structure over a JSON value type, external effects (HTTP
responses, storage uploads, BigQuery job results, wall-clock timestamps)
become explicit environment parameters, and exceptions become Except or
Option results mirroring the try and except structure of the source.
-/

/-- JSON values as handled by the pipeline (requests .json(), json.dumps,
pandas cells). -/
inductive JVal where
  | null
  | bool (b : Bool)
  | int (n : Int)
  | str (s : String)
  | arr (xs : List JVal)
  | obj (fs : List (String × JVal))

-- Boolean structural equality on JSON values (value equality in Python).
mutual

def beqJ : JVal → JVal → Bool
  | JVal.null, JVal.null => true
  | JVal.bool a, JVal.bool b => a == b
  | JVal.int a, JVal.int b => a == b
  | JVal.str a, JVal.str b => a == b
  | JVal.arr xs, JVal.arr ys => beqJL xs ys
  | JVal.obj fs, JVal.obj gs => beqJF fs gs
  | _, _ => false

def beqJL : List JVal → List JVal → Bool
  | [], [] => true
  | x :: xs, y :: ys => beqJ x y && beqJL xs ys
  | _, _ => false

def beqJF : List (String × JVal) → List (String × JVal) → Bool
  | [], [] => true
  | (k, v) :: fs, (l, w) :: gs => k == l && beqJ v w && beqJF fs gs
  | _, _ => false

end

/-- Lift a Boolean equality to options (used for projected cells where a
column may be absent). -/
def beqOpt (beq : α → α → Bool) : Option α → Option α → Bool
  | none, none => true
  | some a, some b => beq a b
  | _, _ => false

/-- Lift a Boolean equality to lists (used for whole rows and row
projections). -/
def beqList (beq : α → α → Bool) : List α → List α → Bool
  | [], [] => true
  | a :: as_, b :: bs => beq a b && beqList beq as_ bs
  | _, _ => false

-- Compact serialization, modelling json.dumps with default separators.
mutual

def dumps : JVal → String
  | JVal.null => "null"
  | JVal.bool true => "true"
  | JVal.bool false => "false"
  | JVal.int n => toString n
  | JVal.str s => "\x22" ++ s ++ "\x22"
  | JVal.arr xs => "[" ++ dumpsList xs ++ "]"
  | JVal.obj fs => "\x7b" ++ dumpsFields fs ++ "\x7d"

def dumpsList : List JVal → String
  | [] => ""
  | [x] => dumps x
  | x :: y :: rest => dumps x ++ ", " ++ dumpsList (y :: rest)

def dumpsFields : List (String × JVal) → String
  | [] => ""
  | [(k, v)] => "\x22" ++ k ++ "\x22: " ++ dumps v
  | (k, v) :: p :: rest => "\x22" ++ k ++ "\x22: " ++ dumps v ++ ", " ++ dumpsFields (p :: rest)

end

/-- Python truthiness of a JSON value. -/
def truthy : JVal → Bool
  | JVal.null => false
  | JVal.bool b => b
  | JVal.int n => n != 0
  | JVal.str s => !s.isEmpty
  | JVal.arr xs => !xs.isEmpty
  | JVal.obj fs => !fs.isEmpty

/-- Python truthiness where None (an absent dict key) is falsy. -/
def truthyOpt : Option JVal → Bool
  | none => false
  | some v => truthy v

/-- View a JSON value as a dict; calling .get on a non-dict value raises in
Python. -/
def asObj : JVal → Option (List (String × JVal))
  | JVal.obj fs => some fs
  | _ => none

/-- dict.get k, returning none when the key is absent. -/
def dictGet (fs : List (String × JVal)) (k : String) : Option JVal :=
  (fs.find? (fun p => p.1 == k)).map Prod.snd

/-- Python iteration over a value, as used by list.extend: lists yield
elements, strings yield characters, dicts yield keys, scalars raise. -/
def pyIter : JVal → Option (List JVal)
  | JVal.arr xs => some xs
  | JVal.str s => some (s.toList.map (fun c => JVal.str (String.singleton c)))
  | JVal.obj fs => some (fs.map (fun p => JVal.str p.1))
  | _ => none

/-- A pandas DataFrame: ordered column names plus rows aligned with them.
A missing field is a null cell (NaN in pandas). -/
structure DF where
  cols : List String
  rows : List (List JVal)

/-- pandas df.empty: true when either axis has length zero. -/
def DF.isEmptyB (df : DF) : Bool :=
  df.rows.isEmpty || df.cols.isEmpty

/-- Keep the first occurrence of each key, dropping later rows whose key
(under f and the Boolean equality beq) was already seen. This is the
semantics of pandas drop_duplicates with keep equal to first. -/
def dedupOnByAux (beq : β → β → Bool) (f : α → β) (seen : List β) : List α → List α
  | [] => []
  | x :: xs =>
    if seen.any (fun b => beq b (f x)) then dedupOnByAux beq f seen xs
    else x :: dedupOnByAux beq f (f x :: seen) xs

def dedupOnBy (beq : β → β → Bool) (f : α → β) (l : List α) : List α :=
  dedupOnByAux beq f [] l

/-- Number of rows marked as duplicates of an earlier row, the semantics of
pandas duplicated(subset).sum(). -/
def countDupsByAux (beq : β → β → Bool) (f : α → β) (seen : List β) : List α → Nat
  | [] => 0
  | x :: xs =>
    if seen.any (fun b => beq b (f x)) then 1 + countDupsByAux beq f seen xs
    else countDupsByAux beq f (f x :: seen) xs

def countDupsBy (beq : β → β → Bool) (f : α → β) (l : List α) : Nat :=
  countDupsByAux beq f [] l

/-- Project one row onto a list of column names (a cell is none when the
column is absent from the frame). -/
def rowProj (cols subset : List String) (r : List JVal) : List (Option JVal) :=
  subset.map (fun c => r.get? (cols.findIdx (fun x => x == c)))

/-- Boolean equality of projected rows. -/
def beqProj : List (Option JVal) → List (Option JVal) → Bool :=
  beqList (beqOpt beqJ)

/-- Boolean equality of full rows. -/
def beqRow : List JVal → List JVal → Bool :=
  beqList beqJ

/-- pandas drop_duplicates: on a subset of columns when given, otherwise on
the full row. -/
def dropDuplicates (df : DF) : Option (List String) → DF
  | some subset => { df with rows := dedupOnBy beqProj (rowProj df.cols subset) df.rows }
  | none => { df with rows := dedupOnBy beqRow id df.rows }

/-- Set a column to one value on every row, appending the column when it is
new (pandas column assignment with a scalar). -/
def setCol (df : DF) (c : String) (v : JVal) : DF :=
  if df.cols.contains c then
    { cols := df.cols, rows := df.rows.map (fun r => r.set (df.cols.findIdx (fun x => x == c)) v) }
  else
    { cols := df.cols ++ [c], rows := df.rows.map (fun r => r ++ [v]) }

/-- sanitize_dataframe cell rule: only list or dict values are re-serialized
to JSON strings; scalars are left alone. -/
def sanitizeCell : JVal → JVal
  | JVal.arr xs => JVal.str (dumps (JVal.arr xs))
  | JVal.obj fs => JVal.str (dumps (JVal.obj fs))
  | v => v

/-- sanitize_dataframe from data_pipeline.py. -/
def sanitize_dataframe (df : DF) : DF :=
  { df with rows := df.rows.map (fun r => r.map sanitizeCell) }

-- json_normalize with sep equal to underscore: nested dicts are flattened
-- recursively with parent_child key joining; other values stay as cells.
mutual

def flattenFields : List (String × JVal) → List (String × JVal)
  | [] => []
  | (k, v) :: rest => flattenOne k v ++ flattenFields rest

def flattenOne (k : String) : JVal → List (String × JVal)
  | JVal.obj gs => (flattenFields gs).map (fun p => (k ++ "_" ++ p.1, p.2))
  | v => [(k, v)]

end

/-- Accumulate column names in order of first appearance. -/
def appendNew (acc : List String) : List String → List String
  | [] => acc
  | k :: ks => appendNew (if acc.contains k then acc else acc ++ [k]) ks

/-- Columns of the normalized frame: union of flattened keys across the
records, in order of first appearance. -/
def dfCols (recs : List (List (String × JVal))) : List String :=
  recs.foldl (fun acc r => appendNew acc ((flattenFields r).map Prod.fst)) []

/-- First value bound to a key in a flattened record, null when absent. -/
def lookupKey (fs : List (String × JVal)) (k : String) : JVal :=
  ((fs.find? (fun p => p.1 == k)).map Prod.snd).getD JVal.null

/-- The tabular frame produced by json_normalize on a record list. -/
def buildDF (recs : List (List (String × JVal))) : DF :=
  let cols := dfCols recs
  { cols := cols, rows := recs.map (fun r => (dfCols recs).map (fun c => lookupKey (flattenFields r) c)) }

/-- flatten_and_clean from data_pipeline.py. The two wall-clock reads,
pd.Timestamp.now for load_timestamp and its date string for source_file,
are passed in as the environment parameters ts and day. -/
def flatten_and_clean (name : String) (records : List (List (String × JVal))) (ts : JVal) (day : String) : DF :=
  if records.isEmpty then { cols := [], rows := [] }
  else
    let df := buildDF records
    let df1 := setCol df "load_timestamp" ts
    let df2 := setCol df1 "source_file" (JVal.str day)
    let df3 := sanitize_dataframe df2
    let subset := if df3.cols.contains "visit_date" then some ["visit_date", "source_file"] else none
    dropDuplicates df3 subset

/-- Python repr of a list of strings, as interpolated into issue messages. -/
def pyListRepr (xs : List String) : String :=
  "[" ++ String.intercalate ", " (xs.map (fun s => "\x27" ++ s ++ "\x27")) ++ "]"

/-- Required columns per logical table name. -/
def requiredCols : String → List String
  | "daily_visits" => ["visit_date", "total_visits"]
  | "ga_sessions" => ["visitId", "channelGrouping"]
  | _ => []

/-- True when some row has a null cell in the named column. -/
def colHasNull (df : DF) (c : String) : Bool :=
  df.rows.any (fun r => beqOpt beqJ (r.get? (df.cols.findIdx (fun x => x == c))) (some JVal.null))

/-- The missing-required-columns issue block of run_data_quality_checks. -/
def dqMissingIssues (df : DF) (table_name : String) : List String :=
  let missing_cols := (requiredCols table_name).filter (fun c => !df.cols.contains c)
  if missing_cols.isEmpty then [] else ["Missing required columns: " ++ pyListRepr missing_cols]

/-- The null-check issue block of run_data_quality_checks: one issue per
required column that is present and contains a null. -/
def dqNullIssues (df : DF) (table_name : String) : List String :=
  (requiredCols table_name).filterMap (fun c =>
    if df.cols.contains c && colHasNull df c then
      some ("Column \x27" ++ c ++ "\x27 contains NULL values.")
    else none)

/-- The duplicate-key issue block of run_data_quality_checks, with the
table-specific composite key. -/
def dqDupIssues (df : DF) (table_name : String) : List String :=
  if table_name == "daily_visits" && df.cols.contains "visit_date" && df.cols.contains "source_file" then
    let dups := countDupsBy beqProj (rowProj df.cols ["visit_date", "source_file"]) df.rows
    if dups > 0 then [toString dups ++ " duplicate visit_date+source_file rows found."] else []
  else if table_name == "ga_sessions" && df.cols.contains "visitId" && df.cols.contains "source_file" then
    let dups := countDupsBy beqProj (rowProj df.cols ["visitId", "source_file"]) df.rows
    if dups > 0 then [toString dups ++ " duplicate visitId+source_file rows found."] else []
  else []

/-- The record-count sanity block of run_data_quality_checks: fewer than 5
rows is an issue, with the fixed constant threshold of the source. -/
def dqLowIssues (df : DF) : List String :=
  if df.rows.length < 5 then ["Unusually low record count: " ++ toString df.rows.length ++ " rows."]
  else []

/-- The issue list accumulated over the non-empty-frame checks, in source
order. -/
def dqIssues (df : DF) (table_name : String) : List String :=
  dqMissingIssues df table_name ++ dqNullIssues df table_name ++ dqDupIssues df table_name ++ dqLowIssues df

/-- run_data_quality_checks from data_pipeline.py: accumulated issues and a
verdict that is valid exactly when no issue was collected. -/
def run_data_quality_checks (df : DF) (table_name : String) : Bool × List String :=
  if df.isEmptyB then (false, ["Empty dataframe – no records to process."])
  else (((dqIssues df table_name).isEmpty : Bool), dqIssues df table_name)

/-- Calendar date of one datetime.datetime.now call during the fetch loop. -/
structure Date where
  year : Nat
  month : Nat
  day : Nat
deriving DecidableEq

/-- What the environment does for one attempted page: the GET call raises a
transport error, or yields a response with an HTTP status, a parsed JSON
body (none when resp.json() raises), the wall-clock date observed for that
page, and whether the storage upload for the page succeeds. -/
inductive FetchEvent where
  | transportError
  | response (status : Nat) (body : Option JVal) (today : Date) (uploadOk : Bool)

/-- State accumulated by fetch_paginated_data: the record list, the storage
paths appended before each upload, and the uploads the sink received
(path and serialized content). -/
structure FetchAcc where
  all_records : List JVal
  blob_paths : List String
  uploads : List (String × String)

/-- Zero-padded two-digit rendering, the Python 02d format. -/
def pad2 (n : Nat) : String :=
  (if n < 10 then "0" else "") ++ toString n

/-- The storage object path built for page n of an endpoint, exactly as in
the source: note the raw_api_data top-level prefix. -/
def blobPath (name : String) (d : Date) (page : Nat) : String :=
  "raw_api_data/" ++ name ++ "/year=" ++ toString d.year ++ "/month=" ++ pad2 d.month ++
    "/day=" ++ pad2 d.day ++ "/" ++ name ++ "_page_" ++ toString page ++ ".json"

/-- The record payload of a response: data.get records, falling back by
Python truthiness to data.get data, then to the empty list. -/
def getRecordsVal (fs : List (String × JVal)) : JVal :=
  let r1 := (dictGet fs "records").getD JVal.null
  if truthy r1 then r1
  else
    let r2 := (dictGet fs "data").getD JVal.null
    if truthy r2 then r2 else JVal.arr []

/-- The two pagination signals read in the loop condition:
data.get pagination (defaulting to an empty dict) then .get has_next, and
data.get hasMore. none means the pagination value was not a dict, so the
chained .get raises. -/
def pagSignals (fs : List (String × JVal)) : Option (Option JVal × Option JVal) :=
  match asObj ((dictGet fs "pagination").getD (JVal.obj [])) with
  | none => none
  | some pfs => some (dictGet pfs "has_next", dictGet fs "hasMore")

/-- The accumulator after one fully processed page (records extended, and
when a bucket is available the path appended and the upload performed). -/
def stepAcc (name : String) (bucket : Bool) (page : Nat) (acc : FetchAcc) : FetchEvent → FetchAcc
  | FetchEvent.transportError => acc
  | FetchEvent.response _ body today _ =>
    match body with
    | none => acc
    | some data =>
      match asObj data with
      | none => acc
      | some fs =>
        match pyIter (getRecordsVal fs) with
        | none => acc
        | some recs =>
          let path := blobPath name today page
          { all_records := acc.all_records ++ recs,
            blob_paths := acc.blob_paths ++ (if bucket then [path] else []),
            uploads := acc.uploads ++ (if bucket then [(path, dumps (JVal.arr recs))] else []) }

/-- The while-loop of fetch_paginated_data. Each list element is the
environment behaviour for one attempted page; the loop never looks past
the page at which it breaks. Every failure branch below mirrors a break
of the source loop (caught exception, bad status, falsy record list, or
both pagination signals falsy). -/
def fetchGo (name : String) (bucket : Bool) (page : Nat) (acc : FetchAcc) : List FetchEvent → FetchAcc
  | [] => acc
  | FetchEvent.transportError :: _ => acc
  | FetchEvent.response status body today uploadOk :: rest =>
    if status != 200 then acc
    else
      match body with
      | none => acc
      | some data =>
        match asObj data with
        | none => acc
        | some fs =>
          let recVal := getRecordsVal fs
          if !truthy recVal then acc
          else
            match pyIter recVal with
            | none => acc
            | some recs =>
              let acc1 : FetchAcc :=
                { all_records := acc.all_records ++ recs,
                  blob_paths := acc.blob_paths ++ (if bucket then [blobPath name today page] else []),
                  uploads := acc.uploads }
              if bucket && !uploadOk then acc1
              else
                let acc2 : FetchAcc :=
                  { acc1 with uploads := acc1.uploads ++ (if bucket then [(blobPath name today page, dumps (JVal.arr recs))] else []) }
                match pagSignals fs with
                | none => acc2
                | some sigs =>
                  if !truthyOpt sigs.1 && !truthyOpt sigs.2 then acc2
                  else fetchGo name bucket (page + 1) acc2 rest

/-- A whole run of the fetch loop from page 1 with empty accumulators. -/
def fetchRun (name : String) (bucket : Bool) (events : List FetchEvent) : FetchAcc :=
  fetchGo name bucket 1 { all_records := [], blob_paths := [], uploads := [] } events

/-- fetch_paginated_data from data_pipeline.py: returns the accumulated
records and blob paths; by construction it returns a plain pair, all
page-level exceptions being caught inside the loop. -/
def fetch_paginated_data (name : String) (bucket : Bool) (events : List FetchEvent) : List JVal × List String :=
  let acc := fetchRun name bucket events
  (acc.all_records, acc.blob_paths)

/-- A page event on which the loop fully succeeds and continues to the next
page: status 200, parsable dict body, truthy iterable record payload, a
successful upload when a bucket is present, and a truthy pagination
signal. -/
def contPage (bucket : Bool) : FetchEvent → Bool
  | FetchEvent.transportError => false
  | FetchEvent.response status body _ uploadOk =>
    status == 200 &&
    (match body with
     | none => false
     | some data =>
       match asObj data with
       | none => false
       | some fs =>
         truthy (getRecordsVal fs) &&
         (pyIter (getRecordsVal fs)).isSome &&
         (!bucket || uploadOk) &&
         (match pagSignals fs with
          | none => false
          | some sigs => truthyOpt sigs.1 || truthyOpt sigs.2))

/-- A page-level fetch failure in the sense of the claim: transport error,
non-success HTTP status, or response-parsing error. -/
def fetchFailEvent : FetchEvent → Bool
  | FetchEvent.transportError => true
  | FetchEvent.response status body _ _ => status != 200 || body.isNone

/-- Date carried by an event (arbitrary for a transport error). -/
def evDate : FetchEvent → Date
  | FetchEvent.transportError => { year := 0, month := 0, day := 0 }
  | FetchEvent.response _ _ today _ => today

/-- Record list carried by an event (empty when it cannot be extracted). -/
def evRecords : FetchEvent → List JVal
  | FetchEvent.transportError => []
  | FetchEvent.response _ body _ _ =>
    match body with
    | none => []
    | some data =>
      match asObj data with
      | none => []
      | some fs => (pyIter (getRecordsVal fs)).getD []

/-- The uploads the storage sink should receive for a run of successful
pages starting at the given page number: one object per page, at the
deterministic path for that page and fetch date, containing the JSON
serialization of the raw record list of the page. -/
def expectedUploads (name : String) (page : Nat) : List FetchEvent → List (String × String)
  | [] => []
  | e :: rest => (blobPath name (evDate e) page, dumps (JVal.arr (evRecords e))) :: expectedUploads name (page + 1) rest

/-- A row of the ga_sessions staging or target table, with the columns named
by the MERGE statement. load_timestamp is an instant, modelled as an
integer. -/
structure GaRow where
  visitId : String
  channelGrouping : JVal
  device_browser : JVal
  geoNetwork_country : JVal
  totals_hits : JVal
  load_timestamp : Int
  source_file : String

/-- BigQuery CAST(x AS STRING) on the scalar cell values that can reach the
merge (after sanitize_dataframe, cells are scalars). -/
def bqCastString : JVal → JVal
  | JVal.null => JVal.null
  | JVal.str s => JVal.str s
  | JVal.int n => JVal.str (toString n)
  | JVal.bool true => JVal.str "true"
  | JVal.bool false => JVal.str "false"
  | v => JVal.str (dumps v)

/-- The natural key of the ga_sessions merge. -/
def gaKey (r : GaRow) : String × String :=
  (r.visitId, r.source_file)

/-- Boolean key test used in filters below. -/
def hasKey (k : String × String) (r : GaRow) : Bool :=
  decide (gaKey r = k)

/-- The row kept for one key by ROW_NUMBER over the key partition ordered by
load_timestamp descending with row_num equal to 1: the row with the
greatest load_timestamp among the rows of that key (earliest occurrence
kept on a tie). -/
def pickLatest (k : String × String) : List GaRow → Option GaRow
  | [] => none
  | r :: rs =>
    if gaKey r = k then
      match pickLatest k rs with
      | none => some r
      | some r2 => some (if r2.load_timestamp > r.load_timestamp then r2 else r)
    else pickLatest k rs

/-- The distinct keys present in a staging set, in order of first
appearance. -/
def stagingKeys (rows : List GaRow) : List (String × String) :=
  dedupOnBy (fun a b => decide (a = b)) id (rows.map gaKey)

/-- The reduced source of the ga_sessions MERGE: one row per
(visitId, source_file), keeping the latest load_timestamp. -/
def reduceStaging (rows : List GaRow) : List GaRow :=
  (stagingKeys rows).filterMap (fun k => pickLatest k rows)

/-- WHEN MATCHED THEN UPDATE of the ga_sessions MERGE: overwrite the
non-key columns from the source row, casting totals_hits to a string. -/
def gaUpdate (t s : GaRow) : GaRow :=
  { t with
    channelGrouping := s.channelGrouping,
    device_browser := s.device_browser,
    geoNetwork_country := s.geoNetwork_country,
    totals_hits := bqCastString s.totals_hits,
    load_timestamp := s.load_timestamp }

/-- WHEN NOT MATCHED THEN INSERT of the ga_sessions MERGE, with the same
cast applied to totals_hits. -/
def gaInsert (s : GaRow) : GaRow :=
  { s with totals_hits := bqCastString s.totals_hits }

/-- The ga_sessions branch of upsert_to_final: reduce staging to one row
per key, update every matched target row from its source row, and insert
the reduced rows with no match in the target. -/
def upsert_to_final_ga_sessions (target staging : List GaRow) : List GaRow :=
  let S := reduceStaging staging
  let updated := target.map (fun t =>
    match S.find? (fun s => decide (gaKey s = gaKey t)) with
    | some s => gaUpdate t s
    | none => t)
  let inserted := (S.filter (fun s => !target.any (fun t => decide (gaKey t = gaKey s)))).map gaInsert
  updated ++ inserted

/-- One audit row of the load_audit table. -/
structure AuditRow where
  table_name : String
  record_count : Nat
  status : String
  load_timestamp : Int
  source_files : List String

/-- The source_files argument of log_audit: a bare string or a list. -/
inductive StrOrList where
  | s (x : String)
  | l (xs : List String)

/-- The normalization at the top of log_audit: a bare string becomes a
one-element list. -/
def normalizeSourceFiles : StrOrList → List String
  | StrOrList.s x => [x]
  | StrOrList.l xs => xs

/-- log_audit from data_pipeline.py. The BigQuery append is an external
effect whose success is the environment flag bqWriteOk and whose
wall-clock timestamp is now; the row appended to load_audit is returned,
none when the write failed. The except branch of the source catches any
write failure and only prints, so this function always returns normally. -/
def log_audit (bqWriteOk : Bool) (now : Int) (table_name : String) (record_count : Nat)
    (status : String) (source_files : StrOrList) : Option AuditRow :=
  let row : AuditRow :=
    { table_name := table_name, record_count := record_count, status := status,
      load_timestamp := now, source_files := normalizeSourceFiles source_files }
  if bqWriteOk then some row else none

/-- Externally visible warehouse effects of one endpoint run. -/
inductive Effect where
  | stagingLoad (table : String) (rowCount : Nat)
  | mergeRun (table : String)
  | audit (row : AuditRow)

/-- Per-endpoint environment of one run of main: the fetch events, the two
wall-clock reads of flatten_and_clean, the audit timestamp, the failure
messages (none means success) of the staging load job and of the merge
query, and whether the audit append succeeds. -/
structure EndpointEnv where
  events : List FetchEvent
  ts : JVal
  day : String
  now : Int
  stagingErr : Option String
  mergeErr : Option String
  auditOk : Bool

/-- load_to_staging from data_pipeline.py at the effect level: an empty
frame is skipped without error; otherwise the load job either truncates
and loads the staging table or raises (the source re-raises load
errors). -/
def load_to_staging (stagingErr : Option String) (df : DF) (table_name : String) : Except String (List Effect) :=
  if df.isEmptyB then Except.ok []
  else
    match stagingErr with
    | some e => Except.error e
    | none => Except.ok [Effect.stagingLoad table_name df.rows.length]

/-- upsert_to_final at the effect level: the two known tables run their
MERGE query (re-raising failures); an unknown table name is a no-op that
only prints. -/
def upsertStep (mergeErr : Option String) (table_name : String) : Except String (List Effect) :=
  if table_name == "daily_visits" || table_name == "ga_sessions" then
    match mergeErr with
    | some e => Except.error e
    | none => Except.ok [Effect.mergeRun table_name]
  else Except.ok []

/-- The audit effect produced by one log_audit call (empty when the write
failed, which the source swallows). -/
def auditEffects (env : EndpointEnv) (name : String) (cnt : Nat) (status : String) (sf : List String) : List Effect :=
  match log_audit env.auditOk env.now name cnt status (StrOrList.l sf) with
  | some row => [Effect.audit row]
  | none => []

/-- Lines 29 to 38 of main: load to staging, merge, SUCCESS audit; any
exception from the two warehouse steps is caught by the outer except,
which logs a FAILED audit with record count 0 (itself best-effort). -/
def loadMergeAudit (env : EndpointEnv) (name : String) (df2 : DF) (source_files : List String) : List Effect :=
  match load_to_staging env.stagingErr df2 name with
  | Except.error e => auditEffects env name 0 ("FAILED: " ++ e) source_files
  | Except.ok eff1 =>
    match upsertStep env.mergeErr name with
    | Except.error e => eff1 ++ auditEffects env name 0 ("FAILED: " ++ e) source_files
    | Except.ok eff2 => eff1 ++ eff2 ++ auditEffects env name df2.rows.length "SUCCESS" source_files

/-- Substring test, as the Python in operator on strings. -/
def subListB (pat : List Char) : List Char → Bool
  | [] => pat.isEmpty
  | c :: rest => pat.isPrefixOf (c :: rest) || subListB pat rest

def containsSub (hay pat : String) : Bool :=
  subListB pat.toList hay.toList

/-- Bridge from raw fetched values to the dict records flatten_and_clean is
annotated with (records: list[dict] in the source); the upstream API
contract supplies dict records, and a non-dict record is modelled as an
empty dict. -/
def recordDicts (l : List JVal) : List (List (String × JVal)) :=
  l.map (fun v => (asObj v).getD [])

/-- The body of the per-endpoint loop of main, run with the module fully
initialized: fetch, clean, quality gate; on an invalid verdict, a verdict
whose issues mention duplicate leads to an in-line dedup and a normal
load, any other invalid verdict leads to a FAILED audit and a skip of
staging and merge. -/
def processEndpoint (bucket : Bool) (name : String) (env : EndpointEnv) : List Effect :=
  let fr := fetchRun name bucket env.events
  let source_files := fr.blob_paths
  let df := flatten_and_clean name (recordDicts fr.all_records) env.ts env.day
  let vq := run_data_quality_checks df name
  if vq.1 then loadMergeAudit env name df source_files
  else if vq.2.any (fun issue => containsSub issue "duplicate") then
    let df2 :=
      if name == "ga_sessions" then dropDuplicates df (some ["visitId", "source_file"])
      else if name == "daily_visits" then dropDuplicates df (some ["visit_date", "source_file"])
      else df
    loadMergeAudit env name df2 source_files
  else
    auditEffects env name df.rows.length ("FAILED: Data Quality – " ++ pyListRepr vq.2) source_files

/-- The endpoint mapping of the configuration module. -/
def ENDPOINTS : List (String × String) :=
  [("daily_visits", "daily-visits"), ("ga_sessions", "ga-sessions-data")]

/-- The endpoint set main iterates over: the first statement of main binds
endpoints to cf.ENDPOINTS whatever the run_type argument is. -/
def mainEndpoints (run_type : String) : List (String × String) :=
  ENDPOINTS

/-- The argparse surface of the __main__ block: one optional run_type flag
whose default is carried in; an unrecognized argument or a missing value
makes argparse exit with an error (none). -/
def parseRunTypeFrom (dflt : String) : List String → Option String
  | [] => some dflt
  | a :: rest =>
    if a == "--run_type" then
      match rest with
      | [] => none
      | v :: rest2 => parseRunTypeFrom v rest2
    else if ("--run_type=".toList).isPrefixOf a.toList then
      parseRunTypeFrom (a.drop 11) rest
    else none

/-- The loop of main over the configured endpoints, concatenating the
warehouse effects of each endpoint in order. -/
def mainRun (bucket : Bool) (eps : List (String × EndpointEnv)) : List Effect :=
  (eps.map (fun p => processEndpoint bucket p.1 p.2)).flatten

/-- One top-level statement of data_pipeline.py: a statement that binds
module-level names (imports, def, assignments), or the guard
if __name__ == __main__ which calls main when run as a script. -/
inductive TopStmt where
  | bind (names : List String)
  | runMainGuard

/-- The top-level statements of data_pipeline.py in file order: imports,
def main, the __main__ guard, the client initializations, then the six
helper function definitions. -/
def dataPipelineModule : List TopStmt :=
  [ TopStmt.bind ["json", "datetime", "requests", "pd", "json_normalize", "bigquery", "storage", "cf", "argparse"],
    TopStmt.bind ["main"],
    TopStmt.runMainGuard,
    TopStmt.bind ["bq_client"],
    TopStmt.bind ["storage_client", "bucket"],
    TopStmt.bind ["sanitize_dataframe"],
    TopStmt.bind ["fetch_paginated_data"],
    TopStmt.bind ["flatten_and_clean"],
    TopStmt.bind ["run_data_quality_checks"],
    TopStmt.bind ["load_to_staging"],
    TopStmt.bind ["upsert_to_final"],
    TopStmt.bind ["log_audit"] ]

/-- The module-level names already bound when the first __main__ guard
statement executes. -/
def globalsAtGuard : List TopStmt → List String
  | [] => []
  | TopStmt.bind ns :: rest => ns ++ globalsAtGuard rest
  | TopStmt.runMainGuard :: _ => []

/-- Every name bound by the module once all top-level statements have run. -/
def allModuleNames : List TopStmt → List String
  | [] => []
  | TopStmt.bind ns :: rest => ns ++ allModuleNames rest
  | TopStmt.runMainGuard :: rest => allModuleNames rest

/-- Python exceptions relevant to name lookup. -/
inductive PyExc where
  | nameError (n : String)
  | unboundLocalError (n : String)
deriving DecidableEq

/-- Evaluation of the call fetch_paginated_data(endpoint, name, bucket)
inside main, under the given module globals: the callee name is loaded
first, then the arguments left to right; endpoint and name are bound
locals of the loop, bucket resolves in the globals. The first lookup that
fails raises. -/
def evalFetchCall (g : List String) : Option PyExc :=
  if !g.contains "fetch_paginated_data" then some (PyExc.nameError "fetch_paginated_data")
  else if !g.contains "bucket" then some (PyExc.nameError "bucket")
  else none

/-- Evaluation of the failure-audit call
log_audit(name, 0, f-string, source_files) in the outer except handler:
the callee name is loaded first; source_files is a local of main that is
unbound when the fetch call raised before assigning it. -/
def evalAuditAttempt (g : List String) (sourceFilesBound : Bool) : Option PyExc :=
  if !g.contains "log_audit" then some (PyExc.nameError "log_audit")
  else if !sourceFilesBound then some (PyExc.unboundLocalError "source_files")
  else none

/-- Outcome of one endpoint iteration of main when run under incomplete
module globals. -/
inductive EndpointOutcome where
  | failedNoAudit (fetchExc auditExc : PyExc)
  | failedAudited (fetchExc : PyExc)
  | proceeded
deriving DecidableEq

/-- One endpoint iteration of main under the given globals: if the fetch
call raises, the outer except runs the audit attempt with source_files
unbound; the inner except swallows an audit failure, so the loop always
continues to the next endpoint. -/
def scriptEndpointOutcome (g : List String) : EndpointOutcome :=
  match evalFetchCall g with
  | some e =>
    match evalAuditAttempt g false with
    | some e2 => EndpointOutcome.failedNoAudit e e2
    | none => EndpointOutcome.failedAudited e
  | none => EndpointOutcome.proceeded

/-- Audit rows written during one endpoint iteration with the given
outcome: only the failedAudited outcome writes one. -/
def outcomeWroteAudit : EndpointOutcome → Bool
  | EndpointOutcome.failedAudited _ => true
  | _ => false

/-- Running the module as a script: the guard executes main over the
configured endpoints with the globals bound so far, and the run completes
with one outcome per endpoint. -/
def scriptRun (stmts : List TopStmt) (endpoints : List String) : List EndpointOutcome :=
  endpoints.map (fun _ => scriptEndpointOutcome (globalsAtGuard stmts))

-- Lawfulness of the Boolean equalities, connecting them to propositional
-- equality for the distinctness statements below.
mutual

theorem beqJ_eq : ∀ a b, beqJ a b = true ↔ a = b
  | JVal.null, b => by cases b <;> simp [beqJ]
  | JVal.bool x, b => by cases b <;> simp [beqJ]
  | JVal.int x, b => by cases b <;> simp [beqJ]
  | JVal.str x, b => by cases b <;> simp [beqJ]
  | JVal.arr xs, b => by
      cases b <;> simp [beqJ]
      exact beqJL_eq xs _
  | JVal.obj fs, b => by
      cases b <;> simp [beqJ]
      exact beqJF_eq fs _

theorem beqJL_eq : ∀ xs ys, beqJL xs ys = true ↔ xs = ys
  | [], ys => by cases ys <;> simp [beqJL]
  | x :: xs, ys => by
      cases ys with
      | nil => simp [beqJL]
      | cons y ys => simp [beqJL, beqJ_eq x y, beqJL_eq xs ys]

theorem beqJF_eq : ∀ fs gs, beqJF fs gs = true ↔ fs = gs
  | [], gs => by cases gs <;> simp [beqJF]
  | (k, v) :: fs, gs => by
      cases gs with
      | nil => simp [beqJF]
      | cons p gs =>
        cases p with
        | mk l w =>
          simp [beqJF, beqJ_eq v w, beqJF_eq fs gs, and_assoc]

end

theorem beqOpt_eq (beq : α → α → Bool) (h : ∀ a b, beq a b = true ↔ a = b) :
    ∀ x y, beqOpt beq x y = true ↔ x = y := by
  intro x y
  cases x <;> cases y <;> simp [beqOpt, h]

theorem beqList_eq (beq : α → α → Bool) (h : ∀ a b, beq a b = true ↔ a = b) :
    ∀ xs ys, beqList beq xs ys = true ↔ xs = ys := by
  intro xs
  induction xs with
  | nil => intro ys; cases ys <;> simp [beqList]
  | cons x xs ih =>
    intro ys
    cases ys with
    | nil => simp [beqList]
    | cons y ys => simp [beqList, h, ih]

theorem beqProj_eq : ∀ x y, beqProj x y = true ↔ x = y :=
  beqList_eq (beqOpt beqJ) (beqOpt_eq beqJ beqJ_eq)

theorem beqRow_eq : ∀ x y, beqRow x y = true ↔ x = y :=
  beqList_eq beqJ beqJ_eq

/-- The keys of the rows kept by dedupOnByAux are distinct and avoid the
seen list, provided the Boolean equality is lawful. -/
theorem dedupOnByAux_map_nodup (beq : β → β → Bool) (hbeq : ∀ a b, beq a b = true ↔ a = b)
    (f : α → β) : ∀ (l : List α) (seen : List β),
    ((dedupOnByAux beq f seen l).map f).Nodup ∧
      ∀ b ∈ (dedupOnByAux beq f seen l).map f, b ∉ seen := by
  intro l
  induction l with
  | nil => intro seen; simp [dedupOnByAux]
  | cons x xs ih =>
    intro seen
    by_cases hmem : f x ∈ seen
    · have hany : seen.any (fun b => beq b (f x)) = true := by
        rw [List.any_eq_true]
        exact ⟨f x, hmem, (hbeq _ _).mpr rfl⟩
      simp only [dedupOnByAux, hany, if_true]
      exact ih seen
    · have hany : seen.any (fun b => beq b (f x)) = false := by
        rw [List.any_eq_false]
        intro b hb
        simp only [Bool.not_eq_true]
        cases hb2 : beq b (f x)
        · rfl
        · exact absurd (((hbeq _ _).mp hb2) ▸ hb) hmem
      simp only [dedupOnByAux, hany, Bool.false_eq_true, if_false, List.map_cons]
      obtain ⟨hnd, hav⟩ := ih (f x :: seen)
      refine ⟨List.nodup_cons.mpr ⟨?_, hnd⟩, ?_⟩
      · intro hin
        exact (hav _ hin) (List.mem_cons_self _ _)
      · intro b hb
        rcases List.mem_cons.mp hb with h | h
        · exact h ▸ hmem
        · intro hbs
          exact (hav b h) (List.mem_cons_of_mem _ hbs)

/-- The key images of a deduplicated list are pairwise distinct. -/
theorem dedupOnBy_map_nodup (beq : β → β → Bool) (hbeq : ∀ a b, beq a b = true ↔ a = b)
    (f : α → β) (l : List α) : ((dedupOnBy beq f l).map f).Nodup :=
  (dedupOnByAux_map_nodup beq hbeq f l []).1

/-- C5: flatten_and_clean deduplicates the cleaned batch on the pair
(visit_date, source_file) when a visit_date column exists, and on exact
full rows otherwise; consequently no two rows of a cleaned batch with a
visit_date column (in particular a daily_visits batch) share the same
(visit_date, source_file) projection. -/
theorem claim_C5 (name : String) (records : List (List (String × JVal))) (ts : JVal) (day : String) :
    ((flatten_and_clean name records ts day).cols.contains "visit_date" = true →
       ((flatten_and_clean name records ts day).rows.map
         (rowProj (flatten_and_clean name records ts day).cols ["visit_date", "source_file"])).Nodup) ∧
    ((flatten_and_clean name records ts day).cols.contains "visit_date" = false →
       (flatten_and_clean name records ts day).rows.Nodup) := by
  unfold flatten_and_clean
  by_cases hrec : records.isEmpty
  · simp [hrec]
  · simp only [hrec, Bool.false_eq_true, if_false]
    by_cases hvd : (sanitize_dataframe (setCol (setCol (buildDF records) "load_timestamp" ts)
        "source_file" (JVal.str day))).cols.contains "visit_date"
    · simp only [hvd, if_true, dropDuplicates]
      constructor
      · intro _
        exact dedupOnBy_map_nodup beqProj beqProj_eq _ _
      · intro hfalse
        simp at hfalse
    · simp only [hvd, Bool.false_eq_true, if_false, dropDuplicates]
      constructor
      · intro htrue
        exact htrue.elim
      · intro _
        have h := dedupOnBy_map_nodup beqRow beqRow_eq id
          (sanitize_dataframe (setCol (setCol (buildDF records) "load_timestamp" ts)
            "source_file" (JVal.str day))).rows
        rwa [List.map_id] at h

/-- Witness for C5 at a concrete daily_visits batch with a duplicated
(visit_date, source_file) pair. -/
theorem claim_C5_witness :
    ((flatten_and_clean "daily_visits"
        [[("visit_date", JVal.str "2024-01-01"), ("total_visits", JVal.int 10)],
         [("visit_date", JVal.str "2024-01-01"), ("total_visits", JVal.int 12)]]
        (JVal.int 0) "2026-10-12").rows.map
      (rowProj (flatten_and_clean "daily_visits"
        [[("visit_date", JVal.str "2024-01-01"), ("total_visits", JVal.int 10)],
         [("visit_date", JVal.str "2024-01-01"), ("total_visits", JVal.int 12)]]
        (JVal.int 0) "2026-10-12").cols ["visit_date", "source_file"])).Nodup :=
  (claim_C5 "daily_visits"
    [[("visit_date", JVal.str "2024-01-01"), ("total_visits", JVal.int 10)],
     [("visit_date", JVal.str "2024-01-01"), ("total_visits", JVal.int 12)]]
    (JVal.int 0) "2026-10-12").1 (by rfl)

/-- C4: the quality verdict is valid exactly when the accumulated issue
list is empty, and every non-empty batch with fewer than 5 rows receives
the low-record-count issue and an invalid verdict, whatever the table
name (so even when all required columns are present and non-null). -/
theorem claim_C4 (df : DF) (table_name : String) :
    ((run_data_quality_checks df table_name).1 = true ↔ (run_data_quality_checks df table_name).2 = []) ∧
    (df.isEmptyB = false → df.rows.length < 5 →
      ("Unusually low record count: " ++ toString df.rows.length ++ " rows.")
          ∈ (run_data_quality_checks df table_name).2 ∧
        (run_data_quality_checks df table_name).1 = false) := by
  unfold run_data_quality_checks
  by_cases hemp : df.isEmptyB
  · simp [hemp]
  · simp only [hemp, Bool.false_eq_true, if_false]
    constructor
    · show (dqIssues df table_name).isEmpty = true ↔ dqIssues df table_name = []
      simp
    · intro _ h5
      have hmem : ("Unusually low record count: " ++ toString df.rows.length ++ " rows.")
          ∈ dqIssues df table_name := by
        unfold dqIssues
        refine List.mem_append_right _ ?_
        unfold dqLowIssues
        simp [h5]
      constructor
      · exact hmem
      · show (dqIssues df table_name).isEmpty = false
        rcases hq : dqIssues df table_name with _ | ⟨a, l⟩
        · rw [hq] at hmem
          cases hmem
        · rfl

/-- Witness for C4 at a concrete non-empty daily_visits batch of 3 rows
with all required columns present and non-null. -/
theorem claim_C4_witness :
    ("Unusually low record count: 3 rows.")
        ∈ (run_data_quality_checks (flatten_and_clean "daily_visits"
            [[("visit_date", JVal.str "2024-01-01"), ("total_visits", JVal.int 10)],
             [("visit_date", JVal.str "2024-01-02"), ("total_visits", JVal.int 11)],
             [("visit_date", JVal.str "2024-01-03"), ("total_visits", JVal.int 12)]]
            (JVal.int 0) "2026-10-12") "daily_visits").2 ∧
      (run_data_quality_checks (flatten_and_clean "daily_visits"
            [[("visit_date", JVal.str "2024-01-01"), ("total_visits", JVal.int 10)],
             [("visit_date", JVal.str "2024-01-02"), ("total_visits", JVal.int 11)],
             [("visit_date", JVal.str "2024-01-03"), ("total_visits", JVal.int 12)]]
            (JVal.int 0) "2026-10-12") "daily_visits").1 = false := by
  have h := (claim_C4 (flatten_and_clean "daily_visits"
      [[("visit_date", JVal.str "2024-01-01"), ("total_visits", JVal.int 10)],
       [("visit_date", JVal.str "2024-01-02"), ("total_visits", JVal.int 11)],
       [("visit_date", JVal.str "2024-01-03"), ("total_visits", JVal.int 12)]]
      (JVal.int 0) "2026-10-12") "daily_visits").2 (by rfl) (by decide)
  exact h

/-- Stepping the fetch loop over a fully successful continuing page: the
loop proceeds to the next page with the accumulator extended by that
page. -/
theorem fetchGo_cons_cont (name : String) (bucket : Bool) (page : Nat) (acc : FetchAcc)
    (e : FetchEvent) (rest : List FetchEvent) (h : contPage bucket e = true) :
    fetchGo name bucket page acc (e :: rest) =
      fetchGo name bucket (page + 1) (stepAcc name bucket page acc e) rest := by
  cases e with
  | transportError => simp [contPage] at h
  | response status body today uploadOk =>
    rcases body with _ | data
    · simp [contPage] at h
    · rcases hobj : asObj data with _ | fs
      · simp [contPage, hobj] at h
      · rcases hps : pagSignals fs with _ | sigs
        · simp [contPage, hobj, hps] at h
        · simp only [contPage, hobj, hps, Bool.and_eq_true, beq_iff_eq, and_assoc] at h
          obtain ⟨hstat, htr, hiter, hup, hsig⟩ := h
          obtain ⟨recs, hrecs⟩ := Option.isSome_iff_exists.mp hiter
          subst hstat
          have hsig2 : (!truthyOpt sigs.1 && !truthyOpt sigs.2) = false := by
            cases h1 : truthyOpt sigs.1 <;> cases h2 : truthyOpt sigs.2 <;>
              simp [h1, h2] at hsig ⊢
          have hup2 : (bucket && !uploadOk) = false := by
            cases hb : bucket <;> cases hu : uploadOk <;> simp [hb, hu] at hup ⊢
          simp [fetchGo, stepAcc, hobj, hps, hrecs, htr, hsig2, hup2]

/-- Stepping the fetch loop over a page-level failure (transport error,
non-success status, or parse error): the loop breaks with the accumulator
unchanged. -/
theorem fetchGo_cons_fail (name : String) (bucket : Bool) (page : Nat) (acc : FetchAcc)
    (e : FetchEvent) (rest : List FetchEvent) (h : fetchFailEvent e = true) :
    fetchGo name bucket page acc (e :: rest) = acc := by
  cases e with
  | transportError => rfl
  | response status body today uploadOk =>
    simp only [fetchFailEvent, Bool.or_eq_true] at h
    rcases h with h | h
    · simp [fetchGo, h]
    · rcases body with _ | data
      · cases hs : (status != 200) <;> simp [fetchGo, hs]
      · simp at h

/-- A run over successful pages followed by a failing page never inspects
anything past the failure and accumulates exactly the successful
prefix. -/
theorem fetchGo_stop_at_fail (name : String) (bucket : Bool) (f : FetchEvent)
    (hfail : fetchFailEvent f = true) :
    ∀ (pre : List FetchEvent), pre.all (contPage bucket) = true →
      ∀ (page : Nat) (acc : FetchAcc) (rest : List FetchEvent),
        fetchGo name bucket page acc (pre ++ f :: rest) = fetchGo name bucket page acc pre := by
  intro pre
  induction pre with
  | nil =>
    intro _ page acc rest
    rw [List.nil_append]
    exact fetchGo_cons_fail name bucket page acc f rest hfail
  | cons e pre ih =>
    intro hall page acc rest
    rw [List.all_cons, Bool.and_eq_true] at hall
    rw [List.cons_append, fetchGo_cons_cont name bucket page acc e _ hall.1,
      fetchGo_cons_cont name bucket page acc e pre hall.1]
    exact ih hall.2 (page + 1) (stepAcc name bucket page acc e) rest

/-- C6: any page-level failure during fetching (transport error, a
non-success HTTP status, or a response-parsing error) stops pagination
for the endpoint: the run over the successful prefix followed by the
failing page equals the run over the prefix alone, so the caller gets
exactly the records and storage paths accumulated before the failure,
later pages are never requested, and no exception reaches the caller
(the function returns a plain pair on every input), making a non-empty
result possibly partial. -/
theorem claim_C6 (name : String) (bucket : Bool) (pre : List FetchEvent) (f : FetchEvent)
    (rest : List FetchEvent) (hgood : pre.all (contPage bucket) = true)
    (hfail : fetchFailEvent f = true) :
    fetch_paginated_data name bucket (pre ++ f :: rest) = fetch_paginated_data name bucket pre := by
  unfold fetch_paginated_data fetchRun
  rw [fetchGo_stop_at_fail name bucket f hfail pre hgood]

/-- Witness for C6: one successful page, then a transport error, then a
further page that is never fetched. -/
theorem claim_C6_witness :
    ([FetchEvent.response 200 (some (JVal.obj [("records", JVal.arr [JVal.obj [("a", JVal.int 1)]]),
        ("hasMore", JVal.bool true)])) { year := 2026, month := 10, day := 12 } true].all (contPage true) = true) ∧
    fetchFailEvent FetchEvent.transportError = true ∧
    fetch_paginated_data "daily_visits" true
      ([FetchEvent.response 200 (some (JVal.obj [("records", JVal.arr [JVal.obj [("a", JVal.int 1)]]),
          ("hasMore", JVal.bool true)])) { year := 2026, month := 10, day := 12 } true] ++
        FetchEvent.transportError ::
          [FetchEvent.response 200 (some (JVal.obj [("records", JVal.arr [JVal.obj [("a", JVal.int 2)]])]))
            { year := 2026, month := 10, day := 12 } true])
      = fetch_paginated_data "daily_visits" true
          [FetchEvent.response 200 (some (JVal.obj [("records", JVal.arr [JVal.obj [("a", JVal.int 1)]]),
            ("hasMore", JVal.bool true)])) { year := 2026, month := 10, day := 12 } true] :=
  ⟨rfl, rfl,
    claim_C6 "daily_visits" true
      [FetchEvent.response 200 (some (JVal.obj [("records", JVal.arr [JVal.obj [("a", JVal.int 1)]]),
        ("hasMore", JVal.bool true)])) { year := 2026, month := 10, day := 12 } true]
      FetchEvent.transportError
      [FetchEvent.response 200 (some (JVal.obj [("records", JVal.arr [JVal.obj [("a", JVal.int 2)]])]))
        { year := 2026, month := 10, day := 12 } true]
      (by rfl) (by rfl)⟩

/-- C3 counterexample: the claim says the loop stops when either signal
indicates no further pages, so a page-1 response carrying
pagination.has_next equal to false should end the run after page 1;
but with hasMore equal to true on the same response the source condition
(a conjunction of the two falsy tests) does not break, page 2 is
requested, and the returned records contain both pages. -/
theorem claim_C3_counterexample :
    pagSignals [("records", JVal.arr [JVal.obj [("a", JVal.int 1)]]),
        ("pagination", JVal.obj [("has_next", JVal.bool false)]), ("hasMore", JVal.bool true)]
      = some (some (JVal.bool false), some (JVal.bool true)) ∧
    fetch_paginated_data "x" false
      [FetchEvent.response 200 (some (JVal.obj [("records", JVal.arr [JVal.obj [("a", JVal.int 1)]]),
          ("pagination", JVal.obj [("has_next", JVal.bool false)]), ("hasMore", JVal.bool true)]))
        { year := 2026, month := 10, day := 12 } true,
       FetchEvent.response 200 (some (JVal.obj [("records", JVal.arr [JVal.obj [("a", JVal.int 2)]])]))
        { year := 2026, month := 10, day := 12 } true]
      = ([JVal.obj [("a", JVal.int 1)], JVal.obj [("a", JVal.int 2)]], []) :=
  ⟨rfl, rfl⟩

/-- C3 amended: after a successfully fetched page the loop stops exactly
when neither pagination signal is truthy, that is when pagination.has_next
and hasMore are each absent, false, or otherwise falsy (in particular it
stops when neither signal is present); when either signal is truthy the
loop continues to the next page even if the other signal is false. -/
theorem claim_C3 (name : String) (bucket : Bool) (page : Nat) (acc : FetchAcc)
    (status : Nat) (data : JVal) (today : Date) (uploadOk : Bool)
    (fs : List (String × JVal)) (sigs : Option JVal × Option JVal)
    (hstat : status = 200) (hobj : asObj data = some fs)
    (htr : truthy (getRecordsVal fs) = true)
    (hiter : (pyIter (getRecordsVal fs)).isSome = true)
    (hup : (!bucket || uploadOk) = true)
    (hps : pagSignals fs = some sigs) :
    ((truthyOpt sigs.1 = false ∧ truthyOpt sigs.2 = false) →
       ∀ rest, fetchGo name bucket page acc (FetchEvent.response status (some data) today uploadOk :: rest)
         = stepAcc name bucket page acc (FetchEvent.response status (some data) today uploadOk)) ∧
    ((truthyOpt sigs.1 = true ∨ truthyOpt sigs.2 = true) →
       ∀ rest, fetchGo name bucket page acc (FetchEvent.response status (some data) today uploadOk :: rest)
         = fetchGo name bucket (page + 1)
             (stepAcc name bucket page acc (FetchEvent.response status (some data) today uploadOk)) rest) := by
  subst hstat
  obtain ⟨recs, hrecs⟩ := Option.isSome_iff_exists.mp hiter
  have hup2 : (bucket && !uploadOk) = false := by
    cases hb : bucket <;> cases hu : uploadOk <;> simp [hb, hu] at hup ⊢
  constructor
  · intro hstop rest
    have hsig2 : (!truthyOpt sigs.1 && !truthyOpt sigs.2) = true := by
      simp [hstop.1, hstop.2]
    simp [fetchGo, stepAcc, hobj, hps, hrecs, htr, hsig2, hup2]
  · intro hcont rest
    have hsig2 : (!truthyOpt sigs.1 && !truthyOpt sigs.2) = false := by
      rcases hcont with h | h <;> simp [h]
    simp [fetchGo, stepAcc, hobj, hps, hrecs, htr, hsig2, hup2]

/-- Witness for C3 at a page-1 response with records and no pagination
signal at all: the loop stops, never touching a further event. -/
theorem claim_C3_witness :
    fetchGo "x" false 1 { all_records := [], blob_paths := [], uploads := [] }
      [FetchEvent.response 200 (some (JVal.obj [("records", JVal.arr [JVal.obj [("a", JVal.int 1)]])]))
         { year := 2026, month := 10, day := 12 } true,
       FetchEvent.transportError]
      = stepAcc "x" false 1 { all_records := [], blob_paths := [], uploads := [] }
          (FetchEvent.response 200 (some (JVal.obj [("records", JVal.arr [JVal.obj [("a", JVal.int 1)]])]))
            { year := 2026, month := 10, day := 12 } true) :=
  (claim_C3 "x" false 1 { all_records := [], blob_paths := [], uploads := [] }
    200 (JVal.obj [("records", JVal.arr [JVal.obj [("a", JVal.int 1)]])])
    { year := 2026, month := 10, day := 12 } true
    [("records", JVal.arr [JVal.obj [("a", JVal.int 1)]])] (none, none)
    rfl rfl rfl rfl rfl rfl).1 ⟨rfl, rfl⟩ [FetchEvent.transportError]

/-- The uploads of one fully successful page step, as recorded by the
storage sink. -/
theorem stepAcc_uploads (name : String) (page : Nat) (acc : FetchAcc) (e : FetchEvent)
    (h : contPage true e = true) :
    (stepAcc name true page acc e).uploads =
      acc.uploads ++ [(blobPath name (evDate e) page, dumps (JVal.arr (evRecords e)))] := by
  cases e with
  | transportError => simp [contPage] at h
  | response status body today uploadOk =>
    rcases body with _ | data
    · simp [contPage] at h
    · rcases hobj : asObj data with _ | fs
      · simp [contPage, hobj] at h
      · simp only [contPage, hobj, Bool.and_eq_true, and_assoc] at h
        obtain ⟨recs, hrecs⟩ := Option.isSome_iff_exists.mp h.2.2.1
        simp [stepAcc, hobj, hrecs, evDate, evRecords]

/-- The storage sink receives exactly one object per successful page,
accumulated in page order. -/
theorem fetchGo_uploads (name : String) :
    ∀ (l : List FetchEvent), l.all (contPage true) = true →
      ∀ (page : Nat) (acc : FetchAcc),
        (fetchGo name true page acc l).uploads = acc.uploads ++ expectedUploads name page l := by
  intro l
  induction l with
  | nil =>
    intro _ page acc
    simp [fetchGo, expectedUploads]
  | cons e l ih =>
    intro hall page acc
    rw [List.all_cons, Bool.and_eq_true] at hall
    rw [fetchGo_cons_cont name true page acc e l hall.1, ih hall.2 (page + 1) _,
      stepAcc_uploads name page acc e hall.1, expectedUploads, List.append_assoc,
      List.singleton_append]

/-- C9 counterexample: for a successfully fetched page with a storage sink
available, the source writes the raw record list under the top-level
prefix raw_api_data, not raw as the claim states; the concrete run below
uploads to the raw_api_data path, which differs from the path the claim
prescribes for the same page. -/
theorem claim_C9_counterexample :
    (fetchRun "daily_visits" true
      [FetchEvent.response 200 (some (JVal.obj [("records",
          JVal.arr [JVal.obj [("visit_date", JVal.str "2024-01-01")]])]))
        { year := 2026, month := 10, day := 12 } true]).uploads
      = [("raw_api_data/daily_visits/year=2026/month=10/day=12/daily_visits_page_1.json",
          "[\x7b\x22visit_date\x22: \x222024-01-01\x22\x7d]")] ∧
    ("raw_api_data/daily_visits/year=2026/month=10/day=12/daily_visits_page_1.json" : String)
      ≠ "raw/daily_visits/year=2026/month=10/day=12/daily_visits_page_1.json" :=
  ⟨rfl, by decide⟩

/-- C9 amended: for every successfully fetched page N of an endpoint, when
the storage sink is available, the raw record list of the page is written
as one serialized JSON array to the deterministic path
raw_api_data/{name}/year=YYYY/month=MM/day=DD/{name}_page_{N}.json, the
date components being the wall-clock date observed for that page. -/
theorem claim_C9 (name : String) (events : List FetchEvent)
    (hgood : events.all (contPage true) = true) :
    (fetchRun name true events).uploads = expectedUploads name 1 events := by
  unfold fetchRun
  rw [fetchGo_uploads name events hgood 1 _]
  rfl

/-- Witness for C9 at a concrete two-page run. -/
theorem claim_C9_witness :
    (fetchRun "daily_visits" true
      [FetchEvent.response 200 (some (JVal.obj [("records", JVal.arr [JVal.obj [("a", JVal.int 1)]]),
          ("hasMore", JVal.bool true)])) { year := 2026, month := 10, day := 12 } true,
       FetchEvent.response 200 (some (JVal.obj [("records", JVal.arr [JVal.obj [("a", JVal.int 2)]]),
          ("hasMore", JVal.bool true)])) { year := 2026, month := 10, day := 13 } true]).uploads
      = expectedUploads "daily_visits" 1
          [FetchEvent.response 200 (some (JVal.obj [("records", JVal.arr [JVal.obj [("a", JVal.int 1)]]),
              ("hasMore", JVal.bool true)])) { year := 2026, month := 10, day := 12 } true,
           FetchEvent.response 200 (some (JVal.obj [("records", JVal.arr [JVal.obj [("a", JVal.int 2)]]),
              ("hasMore", JVal.bool true)])) { year := 2026, month := 10, day := 13 } true] :=
  claim_C9 "daily_visits"
    [FetchEvent.response 200 (some (JVal.obj [("records", JVal.arr [JVal.obj [("a", JVal.int 1)]]),
        ("hasMore", JVal.bool true)])) { year := 2026, month := 10, day := 12 } true,
     FetchEvent.response 200 (some (JVal.obj [("records", JVal.arr [JVal.obj [("a", JVal.int 2)]]),
        ("hasMore", JVal.bool true)])) { year := 2026, month := 10, day := 13 } true]
    (by rfl)

/-- A row picked for a key comes from the list and has that key. -/
theorem pickLatest_some (k : String × String) :
    ∀ (l : List GaRow) (r : GaRow), pickLatest k l = some r → r ∈ l ∧ gaKey r = k := by
  intro l
  induction l with
  | nil => intro r h; cases h
  | cons a l ih =>
    intro r h
    by_cases hk : gaKey a = k
    · rw [pickLatest, if_pos hk] at h
      rcases hpl : pickLatest k l with _ | r2
      · rw [hpl] at h
        have := Option.some.inj h
        subst this
        exact ⟨List.mem_cons_self _ _, hk⟩
      · rw [hpl] at h
        simp only at h
        have hmem := ih r2 hpl
        by_cases hgt : r2.load_timestamp > a.load_timestamp
        · rw [if_pos hgt] at h
          have := Option.some.inj h
          subst this
          exact ⟨List.mem_cons_of_mem _ hmem.1, hmem.2⟩
        · rw [if_neg hgt] at h
          have := Option.some.inj h
          subst this
          exact ⟨List.mem_cons_self _ _, hk⟩
    · rw [pickLatest, if_neg hk] at h
      have := ih r h
      exact ⟨List.mem_cons_of_mem _ this.1, this.2⟩

/-- pickLatest finds nothing exactly when no row has the key. -/
theorem pickLatest_none (k : String × String) :
    ∀ (l : List GaRow), pickLatest k l = none → ∀ r ∈ l, gaKey r ≠ k := by
  intro l
  induction l with
  | nil => intro _ r hr; cases hr
  | cons a l ih =>
    intro h r hr
    by_cases hk : gaKey a = k
    · rw [pickLatest, if_pos hk] at h
      rcases hpl : pickLatest k l with _ | r2 <;> rw [hpl] at h <;> cases h
    · rw [pickLatest, if_neg hk] at h
      rcases List.mem_cons.mp hr with he | he
      · rw [he]; exact hk
      · exact ih h r he

/-- When one row of the key strictly dominates every other row of that key
by load_timestamp, pickLatest returns exactly that row. -/
theorem pickLatest_max (k : String × String) :
    ∀ (l : List GaRow) (sStar : GaRow), sStar ∈ l → gaKey sStar = k →
      (∀ r ∈ l, gaKey r = k → r ≠ sStar → r.load_timestamp < sStar.load_timestamp) →
      pickLatest k l = some sStar := by
  intro l
  induction l with
  | nil => intro s hs; cases hs
  | cons a l ih =>
    intro sStar hmem hkey hmax
    by_cases hk : gaKey a = k
    · rw [pickLatest, if_pos hk]
      rcases hpl : pickLatest k l with _ | r2
      · have hnone := pickLatest_none k l hpl
        rcases List.mem_cons.mp hmem with h | h
        · rw [h]
        · exact absurd hkey (hnone sStar h)
      · have hr2 := pickLatest_some k l r2 hpl
        by_cases has : a = sStar
        · subst has
          by_cases hr2s : r2 = a
          · subst hr2s
            simp
          · have hlt := hmax r2 (List.mem_cons_of_mem _ hr2.1) hr2.2 hr2s
            simp only
            rw [if_neg (by omega)]
        · have hsl : sStar ∈ l := by
            rcases List.mem_cons.mp hmem with h | h
            · exact absurd h.symm has
            · exact h
          have hplStar : pickLatest k l = some sStar :=
            ih sStar hsl hkey (fun r hr hk2 hne => hmax r (List.mem_cons_of_mem _ hr) hk2 hne)
          rw [hpl] at hplStar
          have hr2s := Option.some.inj hplStar
          subst hr2s
          have hlt := hmax a (List.mem_cons_self _ _) hk (fun h => has h)
          simp only
          rw [if_pos hlt]
    · rw [pickLatest, if_neg hk]
      have hsl : sStar ∈ l := by
        rcases List.mem_cons.mp hmem with h | h
        · exact absurd (h ▸ hkey) hk
        · exact h
      exact ih sStar hsl hkey (fun r hr hk2 hne => hmax r (List.mem_cons_of_mem _ hr) hk2 hne)

/-- Membership is preserved by identity deduplication when the element is
not among the already seen keys. -/
theorem mem_dedupOnByAux_id (beq : β → β → Bool) (hbeq : ∀ a b, beq a b = true ↔ a = b) :
    ∀ (l : List β) (seen : List β) (x : β), x ∈ l → x ∉ seen →
      x ∈ dedupOnByAux beq id seen l := by
  intro l
  induction l with
  | nil => intro seen x hx; cases hx
  | cons y l ih =>
    intro seen x hx hns
    by_cases hany : seen.any (fun b => beq b (id y)) = true
    · rw [dedupOnByAux, if_pos hany]
      have hy : y ∈ seen := by
        obtain ⟨b, hb, hbeqy⟩ := List.any_eq_true.mp hany
        exact ((hbeq b y).mp hbeqy) ▸ hb
      rcases List.mem_cons.mp hx with he | he
      · exact absurd (he ▸ hy) hns
      · exact ih seen x he hns
    · rw [dedupOnByAux, if_neg hany]
      rcases List.mem_cons.mp hx with he | he
      · rw [he]; exact List.mem_cons_self _ _
      · by_cases hxy : x = y
        · rw [hxy]; exact List.mem_cons_self _ _
        · refine List.mem_cons_of_mem _ (ih (y :: seen) x he ?_)
          intro hmem
          rcases List.mem_cons.mp hmem with h | h
          · exact hxy h
          · exact hns h

/-- The keys occurring in a staging set occur in its key list. -/
theorem mem_stagingKeys (rows : List GaRow) (r : GaRow) (hr : r ∈ rows) :
    gaKey r ∈ stagingKeys rows := by
  unfold stagingKeys dedupOnBy
  exact mem_dedupOnByAux_id (fun a b => decide (a = b)) (fun a b => by simp)
    (rows.map gaKey) [] (gaKey r) (List.mem_map_of_mem gaKey hr) (by simp)

/-- The key list of a staging set has no duplicates. -/
theorem stagingKeys_nodup (rows : List GaRow) : (stagingKeys rows).Nodup := by
  have h := dedupOnBy_map_nodup (fun (a b : String × String) => decide (a = b))
    (fun a b => by simp) id (rows.map gaKey)
  rwa [List.map_id] at h

/-- Keys other than k contribute no row of key k to the reduced staging. -/
theorem filter_filterMap_pick_nil (staging : List GaRow) (k : String × String) :
    ∀ (keys : List (String × String)), k ∉ keys →
      (keys.filterMap (fun k2 => pickLatest k2 staging)).filter (hasKey k) = [] := by
  intro keys
  induction keys with
  | nil => intro _; rfl
  | cons k0 keys ih =>
    intro hk
    rw [List.filterMap_cons]
    rcases hp : pickLatest k0 staging with _ | r
    · exact ih (fun h => hk (List.mem_cons_of_mem _ h))
    · rw [List.filter_cons]
      have hkey := (pickLatest_some k0 staging r hp).2
      have hne : k0 ≠ k := fun h => hk (h ▸ List.mem_cons_self _ _)
      have hkf : hasKey k r = false := by
        simp only [hasKey, decide_eq_false_iff_not]
        rw [hkey]
        exact hne
      rw [hkf]
      simp only [Bool.false_eq_true, if_false]
      exact ih (fun h => hk (List.mem_cons_of_mem _ h))

/-- Over a duplicate-free key list containing k, the reduced staging has
exactly the picked row for k among the rows of key k. -/
theorem filter_filterMap_pick (staging : List GaRow) (k : String × String) (sStar : GaRow)
    (hpick : pickLatest k staging = some sStar) :
    ∀ (keys : List (String × String)), keys.Nodup → k ∈ keys →
      (keys.filterMap (fun k2 => pickLatest k2 staging)).filter (hasKey k) = [sStar] := by
  intro keys
  induction keys with
  | nil => intro _ h; cases h
  | cons k0 keys ih =>
    intro hnd hk
    obtain ⟨hk0, hnd2⟩ := List.nodup_cons.mp hnd
    rw [List.filterMap_cons]
    by_cases he : k0 = k
    · subst he
      rw [hpick, List.filter_cons]
      have hkt : hasKey k0 sStar = true := by
        simp only [hasKey, decide_eq_true_eq]
        exact (pickLatest_some k0 staging sStar hpick).2
      rw [hkt]
      simp only [if_true]
      rw [filter_filterMap_pick_nil staging k0 keys hk0]
    · have hkmem : k ∈ keys := by
        rcases List.mem_cons.mp hk with h | h
        · exact absurd h.symm he
        · exact h
      rcases hp : pickLatest k0 staging with _ | r
      · exact ih hnd2 hkmem
      · rw [List.filter_cons]
        have hkey := (pickLatest_some k0 staging r hp).2
        have hkf : hasKey k r = false := by
          simp only [hasKey, decide_eq_false_iff_not]
          rw [hkey]
          exact he
        rw [hkf]
        simp only [Bool.false_eq_true, if_false]
        exact ih hnd2 hkmem

/-- The rows of key k in the reduced staging are exactly the strictly
latest row of that key. -/
theorem reduceStaging_filter (staging : List GaRow) (k : String × String) (sStar : GaRow)
    (hmem : sStar ∈ staging) (hkey : gaKey sStar = k)
    (hmax : ∀ r ∈ staging, gaKey r = k → r ≠ sStar → r.load_timestamp < sStar.load_timestamp) :
    (reduceStaging staging).filter (hasKey k) = [sStar] := by
  have hpick := pickLatest_max k staging sStar hmem hkey hmax
  unfold reduceStaging
  exact filter_filterMap_pick staging k sStar hpick (stagingKeys staging)
    (stagingKeys_nodup staging) (hkey ▸ mem_stagingKeys staging sStar hmem)

/-- The MERGE update clause leaves the natural key unchanged. -/
theorem gaKey_gaUpdate (t s : GaRow) : gaKey (gaUpdate t s) = gaKey t := rfl

/-- The MERGE insert clause leaves the natural key unchanged. -/
theorem gaKey_gaInsert (s : GaRow) : gaKey (gaInsert s) = gaKey s := rfl

/-- Updating a target row from a source row of the same key rewrites it to
the inserted form of the source row: every column is overwritten and the
key columns already coincide. -/
theorem gaUpdate_eq_gaInsert (t s : GaRow) (h : gaKey t = gaKey s) : gaUpdate t s = gaInsert s := by
  cases t
  cases s
  simp only [gaKey, Prod.mk.injEq] at h
  simp [gaUpdate, gaInsert, h.1, h.2]

/-- A filter returning a singleton pins down find?. -/
theorem find?_of_filter_singleton (p : α → Bool) (x : α) :
    ∀ (l : List α), l.filter p = [x] → l.find? p = some x := by
  intro l
  induction l with
  | nil => intro h; cases h
  | cons a l ih =>
    intro h
    rw [List.filter_cons] at h
    by_cases hp : p a = true
    · rw [if_pos hp] at h
      injection h with h3 h4
      rw [List.find?_cons_of_pos l hp, h3]
    · rw [if_neg (by simp [hp])] at h
      rw [List.find?_cons_of_neg l hp]
      exact ih h

/-- Filtering the updated target rows by key commutes with the per-row
update, because the update clause never changes a key. -/
theorem upsert_updated_filter (S target : List GaRow) (k : String × String) :
    (target.map (fun t => match S.find? (fun s => decide (gaKey s = gaKey t)) with
      | some s => gaUpdate t s
      | none => t)).filter (hasKey k)
    = (target.filter (hasKey k)).map (fun t => match S.find? (fun s => decide (gaKey s = gaKey t)) with
      | some s => gaUpdate t s
      | none => t) := by
  rw [List.filter_map]
  congr 1
  apply List.filter_congr
  intro t _
  rcases hf : S.find? (fun s => decide (gaKey s = gaKey t)) with _ | s
  · simp [Function.comp, hf]
  · simp [Function.comp, hf, hasKey, gaKey_gaUpdate]

/-- The inserted rows of key k reduce to the single reduced source row for
that key, inserted exactly when the target has no row of that key. -/
theorem upsert_inserted_filter (S target : List GaRow) (k : String × String) (sStar : GaRow)
    (hS : S.filter (hasKey k) = [sStar]) :
    ((S.filter (fun s => !target.any (fun t => decide (gaKey t = gaKey s)))).map gaInsert).filter (hasKey k)
    = if (!target.any (fun t => decide (gaKey t = gaKey sStar))) = true then [gaInsert sStar] else [] := by
  rw [List.filter_map]
  have h1 : (S.filter (fun s => !target.any (fun t => decide (gaKey t = gaKey s)))).filter
        (hasKey k ∘ gaInsert)
      = (S.filter (fun s => !target.any (fun t => decide (gaKey t = gaKey s)))).filter (hasKey k) := by
    apply List.filter_congr
    intro s _
    simp [Function.comp, hasKey, gaKey_gaInsert]
  rw [h1, List.filter_filter]
  have h2 : S.filter (fun a => hasKey k a && !target.any (fun t => decide (gaKey t = gaKey a)))
      = (S.filter (hasKey k)).filter (fun s => !target.any (fun t => decide (gaKey t = gaKey s))) := by
    rw [List.filter_filter]
    apply List.filter_congr
    intro s _
    rw [Bool.and_comm]
  rw [h2, hS, List.filter_cons]
  cases hq : (!target.any (fun t => decide (gaKey t = gaKey sStar)))
  · simp [hq]
  · simp [hq]

/-- C2: merging ga_sessions first reduces the staging set to the single row
with the strictly latest load_timestamp per (visitId, source_file), and
when the target table has at most one row for that key, the merged table
contains exactly one row for the key, carrying the values of the
latest-timestamped staging row (its totals_hits cast to a string, as the
MERGE statement prescribes). -/
theorem claim_C2 (target staging : List GaRow) (k : String × String) (r1 r2 sStar : GaRow)
    (h1 : r1 ∈ staging) (h2 : r2 ∈ staging) (h12 : r1 ≠ r2)
    (hk1 : gaKey r1 = k) (hk2 : gaKey r2 = k)
    (hts : r1.load_timestamp ≠ r2.load_timestamp)
    (hsMem : sStar ∈ staging) (hsKey : gaKey sStar = k)
    (hsMax : ∀ r ∈ staging, gaKey r = k → r ≠ sStar → r.load_timestamp < sStar.load_timestamp)
    (htgt : (target.filter (hasKey k)).length ≤ 1) :
    (reduceStaging staging).filter (hasKey k) = [sStar] ∧
    (upsert_to_final_ga_sessions target staging).filter (hasKey k) = [gaInsert sStar] := by
  have hred := reduceStaging_filter staging k sStar hsMem hsKey hsMax
  refine ⟨hred, ?_⟩
  simp only [upsert_to_final_ga_sessions]
  rw [List.filter_append, upsert_updated_filter (reduceStaging staging) target k,
    upsert_inserted_filter (reduceStaging staging) target k sStar hred]
  rcases htf : target.filter (hasKey k) with _ | ⟨t0, rest⟩
  · have hnone : ∀ t ∈ target, gaKey t ≠ k := by
      intro t ht
      have := List.filter_eq_nil_iff.mp htf t ht
      simpa [hasKey] using this
    have hany : target.any (fun t => decide (gaKey t = gaKey sStar)) = false := by
      rw [List.any_eq_false]
      intro t ht
      simp only [decide_eq_true_eq, hsKey]
      exact hnone t ht
    rw [hany]
    simp
  · have hrest : rest = [] := by
      rw [htf] at htgt
      simp only [List.length_cons] at htgt
      have := Nat.le_of_succ_le_succ htgt
      exact List.length_eq_zero.mp (Nat.le_zero.mp this)
    subst hrest
    have ht0 : t0 ∈ target ∧ hasKey k t0 = true := by
      have : t0 ∈ target.filter (hasKey k) := by rw [htf]; exact List.mem_cons_self _ _
      exact List.mem_filter.mp this
    have ht0key : gaKey t0 = k := by
      have := ht0.2
      simpa [hasKey] using this
    have hany : target.any (fun t => decide (gaKey t = gaKey sStar)) = true := by
      rw [List.any_eq_true]
      exact ⟨t0, ht0.1, by simp [ht0key, hsKey]⟩
    rw [hany]
    have hfind : (reduceStaging staging).find? (fun s => decide (gaKey s = gaKey t0)) = some sStar := by
      have hpred : (fun s => decide (gaKey s = gaKey t0)) = hasKey k := by
        funext s
        rw [ht0key]
        rfl
      rw [hpred]
      exact find?_of_filter_singleton (hasKey k) sStar (reduceStaging staging) hred
    simp only [List.map_cons, List.map_nil, hfind]
    rw [gaUpdate_eq_gaInsert t0 sStar (by rw [ht0key, hsKey])]
    simp

/-- Witness for C2: a target with one existing row for the key and a
staging set with two rows of that key at timestamps 1 and 2. -/
theorem claim_C2_witness :
    (reduceStaging
      [{ visitId := "1", channelGrouping := JVal.str "a1", device_browser := JVal.str "b1",
         geoNetwork_country := JVal.str "c1", totals_hits := JVal.int 5,
         load_timestamp := 1, source_file := "2026-10-12" },
       { visitId := "1", channelGrouping := JVal.str "a2", device_browser := JVal.str "b2",
         geoNetwork_country := JVal.str "c2", totals_hits := JVal.int 7,
         load_timestamp := 2, source_file := "2026-10-12" }]).filter (hasKey ("1", "2026-10-12"))
      = [{ visitId := "1", channelGrouping := JVal.str "a2", device_browser := JVal.str "b2",
           geoNetwork_country := JVal.str "c2", totals_hits := JVal.int 7,
           load_timestamp := 2, source_file := "2026-10-12" }] ∧
    (upsert_to_final_ga_sessions
      [{ visitId := "1", channelGrouping := JVal.str "old", device_browser := JVal.str "old",
         geoNetwork_country := JVal.str "old", totals_hits := JVal.str "3",
         load_timestamp := 0, source_file := "2026-10-12" }]
      [{ visitId := "1", channelGrouping := JVal.str "a1", device_browser := JVal.str "b1",
         geoNetwork_country := JVal.str "c1", totals_hits := JVal.int 5,
         load_timestamp := 1, source_file := "2026-10-12" },
       { visitId := "1", channelGrouping := JVal.str "a2", device_browser := JVal.str "b2",
         geoNetwork_country := JVal.str "c2", totals_hits := JVal.int 7,
         load_timestamp := 2, source_file := "2026-10-12" }]).filter (hasKey ("1", "2026-10-12"))
      = [gaInsert
          { visitId := "1", channelGrouping := JVal.str "a2", device_browser := JVal.str "b2",
            geoNetwork_country := JVal.str "c2", totals_hits := JVal.int 7,
            load_timestamp := 2, source_file := "2026-10-12" }] :=
  claim_C2
    [{ visitId := "1", channelGrouping := JVal.str "old", device_browser := JVal.str "old",
       geoNetwork_country := JVal.str "old", totals_hits := JVal.str "3",
       load_timestamp := 0, source_file := "2026-10-12" }]
    [{ visitId := "1", channelGrouping := JVal.str "a1", device_browser := JVal.str "b1",
       geoNetwork_country := JVal.str "c1", totals_hits := JVal.int 5,
       load_timestamp := 1, source_file := "2026-10-12" },
     { visitId := "1", channelGrouping := JVal.str "a2", device_browser := JVal.str "b2",
       geoNetwork_country := JVal.str "c2", totals_hits := JVal.int 7,
       load_timestamp := 2, source_file := "2026-10-12" }]
    ("1", "2026-10-12")
    { visitId := "1", channelGrouping := JVal.str "a1", device_browser := JVal.str "b1",
      geoNetwork_country := JVal.str "c1", totals_hits := JVal.int 5,
      load_timestamp := 1, source_file := "2026-10-12" }
    { visitId := "1", channelGrouping := JVal.str "a2", device_browser := JVal.str "b2",
      geoNetwork_country := JVal.str "c2", totals_hits := JVal.int 7,
      load_timestamp := 2, source_file := "2026-10-12" }
    { visitId := "1", channelGrouping := JVal.str "a2", device_browser := JVal.str "b2",
      geoNetwork_country := JVal.str "c2", totals_hits := JVal.int 7,
      load_timestamp := 2, source_file := "2026-10-12" }
    (List.mem_cons_self _ _) (List.mem_cons_of_mem _ (List.mem_cons_self _ _))
    (fun h => absurd (congrArg GaRow.load_timestamp h) (by decide))
    rfl rfl (by decide)
    (List.mem_cons_of_mem _ (List.mem_cons_self _ _)) rfl
    (by
      intro r hr hk hne
      rcases List.mem_cons.mp hr with h | h
      · rw [h]
        decide
      · rcases List.mem_cons.mp h with h2 | h2
        · exact absurd h2 hne
        · cases h2)
    (by decide)

/-- C7: log_audit normalizes a bare-string source_files argument into a
one-element sequence in the written audit row, and a failure of the
external audit write never raises past log_audit: for either outcome of
the write the function returns normally, yielding the appended row
exactly when the write succeeded and nothing (a locally reported error)
when it failed. -/
theorem claim_C7 (ok : Bool) (now : Int) (table_name : String) (record_count : Nat)
    (status : String) (f : String) :
    (ok = true → log_audit ok now table_name record_count status (StrOrList.s f)
      = some { table_name := table_name, record_count := record_count, status := status,
               load_timestamp := now, source_files := [f] }) ∧
    (ok = false → log_audit ok now table_name record_count status (StrOrList.s f) = none) := by
  constructor
  · intro h
    subst h
    rfl
  · intro h
    subst h
    rfl

/-- Witness for C7 at a concrete call with a bare string, for both a
successful and a failing audit write. -/
theorem claim_C7_witness :
    log_audit true 0 "daily_visits" 5 "SUCCESS" (StrOrList.s "2026-10-12")
      = some { table_name := "daily_visits", record_count := 5, status := "SUCCESS",
               load_timestamp := 0, source_files := ["2026-10-12"] } ∧
    log_audit false 0 "daily_visits" 5 "SUCCESS" (StrOrList.s "2026-10-12") = none :=
  ⟨(claim_C7 true 0 "daily_visits" 5 "SUCCESS" "2026-10-12").1 rfl,
   (claim_C7 false 0 "daily_visits" 5 "SUCCESS" "2026-10-12").2 rfl⟩

/-- C8 counterexample: the claim says the run-mode value selects which
endpoint set main processes, but main binds its endpoint set to
cf.ENDPOINTS unconditionally and never reads run_type, so a test run and
a full run process the identical endpoint set. -/
theorem claim_C8_counterexample :
    mainEndpoints "test" = mainEndpoints "full" ∧ mainEndpoints "test" = ENDPOINTS :=
  ⟨rfl, rfl⟩

/-- C8 amended: the command-line surface accepts a single optional run_type
parameter, default full (its help text naming full and test); the parsed
value is handed to main but has no effect on which endpoints are
processed: main iterates over the configured cf.ENDPOINTS for every
run_type value. -/
theorem claim_C8 :
    parseRunTypeFrom "full" [] = some "full" ∧
    parseRunTypeFrom "full" ["--run_type", "test"] = some "test" ∧
    (∀ run_type : String, mainEndpoints run_type = ENDPOINTS) :=
  ⟨rfl, rfl, fun _ => rfl⟩

/-- C1 counterexample: a ga_sessions run whose quality verdict is invalid
with a duplicate-key issue; the claim says staging and merge are skipped
and a FAILED audit is written for every kind of quality issue, but the
source treats duplicate issues specially: it drops the duplicates
in-line, loads staging, runs the merge, and writes a SUCCESS audit. -/
theorem claim_C1_counterexample :
    run_data_quality_checks (flatten_and_clean "ga_sessions"
        [[("visitId", JVal.str "1"), ("channelGrouping", JVal.str "x")],
         [("visitId", JVal.str "1"), ("channelGrouping", JVal.str "y")],
         [("visitId", JVal.str "2"), ("channelGrouping", JVal.str "x")],
         [("visitId", JVal.str "3"), ("channelGrouping", JVal.str "x")],
         [("visitId", JVal.str "4"), ("channelGrouping", JVal.str "x")],
         [("visitId", JVal.str "5"), ("channelGrouping", JVal.str "x")]]
        (JVal.int 0) "2026-10-12") "ga_sessions"
      = (false, ["1 duplicate visitId+source_file rows found."]) ∧
    processEndpoint false "ga_sessions"
      { events := [FetchEvent.response 200 (some (JVal.obj [("records", JVal.arr
          [JVal.obj [("visitId", JVal.str "1"), ("channelGrouping", JVal.str "x")],
           JVal.obj [("visitId", JVal.str "1"), ("channelGrouping", JVal.str "y")],
           JVal.obj [("visitId", JVal.str "2"), ("channelGrouping", JVal.str "x")],
           JVal.obj [("visitId", JVal.str "3"), ("channelGrouping", JVal.str "x")],
           JVal.obj [("visitId", JVal.str "4"), ("channelGrouping", JVal.str "x")],
           JVal.obj [("visitId", JVal.str "5"), ("channelGrouping", JVal.str "x")]])]))
          { year := 2026, month := 10, day := 12 } true],
        ts := JVal.int 0, day := "2026-10-12", now := 0,
        stagingErr := none, mergeErr := none, auditOk := true }
      = [Effect.stagingLoad "ga_sessions" 5, Effect.mergeRun "ga_sessions",
         Effect.audit { table_name := "ga_sessions", record_count := 5, status := "SUCCESS",
                        load_timestamp := 0, source_files := [] }] :=
  ⟨rfl, rfl⟩

/-- C1 amended: for every endpoint run in which the quality gate returns an
invalid verdict none of whose issues contains the substring duplicate,
the staging load and the merge are skipped, exactly one audit record with
status FAILED: Data Quality followed by the issue list is written (given
the audit append succeeds), and processing continues with the endpoints
before and after untouched; when some issue does contain duplicate the
source instead drops the duplicates and proceeds with the load. -/
theorem claim_C1 (bucket : Bool) (name : String) (env : EndpointEnv)
    (pre post : List (String × EndpointEnv)) (df : DF) (issues : List String)
    (hdf : df = flatten_and_clean name (recordDicts (fetchRun name bucket env.events).all_records)
      env.ts env.day)
    (hq : run_data_quality_checks df name = (false, issues))
    (hnodup : issues.any (fun issue => containsSub issue "duplicate") = false)
    (haud : env.auditOk = true) :
    mainRun bucket (pre ++ (name, env) :: post) =
      mainRun bucket pre ++
        [Effect.audit
          { table_name := name, record_count := df.rows.length,
            status := "FAILED: Data Quality – " ++ pyListRepr issues,
            load_timestamp := env.now,
            source_files := (fetchRun name bucket env.events).blob_paths }] ++
        mainRun bucket post := by
  have hproc : processEndpoint bucket name env =
      [Effect.audit
        { table_name := name, record_count := df.rows.length,
          status := "FAILED: Data Quality – " ++ pyListRepr issues,
          load_timestamp := env.now,
          source_files := (fetchRun name bucket env.events).blob_paths }] := by
    simp only [processEndpoint]
    rw [← hdf, hq]
    simp only [hnodup, Bool.false_eq_true, if_false]
    unfold auditEffects log_audit
    rw [haud]
    simp [normalizeSourceFiles]
  simp [mainRun, List.append_assoc, hproc]

/-- Witness for C1 at a daily_visits run fetching 3 valid rows: the verdict
is invalid with only the low-record-count issue, and the run writes one
FAILED audit while loading and merging nothing. -/
theorem claim_C1_witness :
    mainRun false ([] ++ ("daily_visits",
      { events := [FetchEvent.response 200 (some (JVal.obj [("records", JVal.arr
          [JVal.obj [("visit_date", JVal.str "2024-01-01"), ("total_visits", JVal.int 10)],
           JVal.obj [("visit_date", JVal.str "2024-01-02"), ("total_visits", JVal.int 11)],
           JVal.obj [("visit_date", JVal.str "2024-01-03"), ("total_visits", JVal.int 12)]])]))
          { year := 2026, month := 10, day := 12 } true],
        ts := JVal.int 0, day := "2026-10-12", now := 0,
        stagingErr := none, mergeErr := none, auditOk := true }) :: []) =
      mainRun false [] ++
        [Effect.audit
          { table_name := "daily_visits",
            record_count := (flatten_and_clean "daily_visits"
              (recordDicts (fetchRun "daily_visits" false
                [FetchEvent.response 200 (some (JVal.obj [("records", JVal.arr
                  [JVal.obj [("visit_date", JVal.str "2024-01-01"), ("total_visits", JVal.int 10)],
                   JVal.obj [("visit_date", JVal.str "2024-01-02"), ("total_visits", JVal.int 11)],
                   JVal.obj [("visit_date", JVal.str "2024-01-03"), ("total_visits", JVal.int 12)]])]))
                  { year := 2026, month := 10, day := 12 } true]).all_records)
              (JVal.int 0) "2026-10-12").rows.length,
            status := "FAILED: Data Quality – " ++ pyListRepr ["Unusually low record count: 3 rows."],
            load_timestamp := 0,
            source_files := (fetchRun "daily_visits" false
              [FetchEvent.response 200 (some (JVal.obj [("records", JVal.arr
                [JVal.obj [("visit_date", JVal.str "2024-01-01"), ("total_visits", JVal.int 10)],
                 JVal.obj [("visit_date", JVal.str "2024-01-02"), ("total_visits", JVal.int 11)],
                 JVal.obj [("visit_date", JVal.str "2024-01-03"), ("total_visits", JVal.int 12)]])]))
                { year := 2026, month := 10, day := 12 } true]).blob_paths }] ++
        mainRun false [] :=
  claim_C1 false "daily_visits"
    { events := [FetchEvent.response 200 (some (JVal.obj [("records", JVal.arr
        [JVal.obj [("visit_date", JVal.str "2024-01-01"), ("total_visits", JVal.int 10)],
         JVal.obj [("visit_date", JVal.str "2024-01-02"), ("total_visits", JVal.int 11)],
         JVal.obj [("visit_date", JVal.str "2024-01-03"), ("total_visits", JVal.int 12)]])]))
        { year := 2026, month := 10, day := 12 } true],
      ts := JVal.int 0, day := "2026-10-12", now := 0,
      stagingErr := none, mergeErr := none, auditOk := true }
    [] []
    (flatten_and_clean "daily_visits"
      (recordDicts (fetchRun "daily_visits" false
        [FetchEvent.response 200 (some (JVal.obj [("records", JVal.arr
          [JVal.obj [("visit_date", JVal.str "2024-01-01"), ("total_visits", JVal.int 10)],
           JVal.obj [("visit_date", JVal.str "2024-01-02"), ("total_visits", JVal.int 11)],
           JVal.obj [("visit_date", JVal.str "2024-01-03"), ("total_visits", JVal.int 12)]])]))
          { year := 2026, month := 10, day := 12 } true]).all_records)
      (JVal.int 0) "2026-10-12")
    ["Unusually low record count: 3 rows."]
    rfl (by rfl) (by rfl) rfl

/-- C10 counterexample: when the module runs as a script the per-endpoint
fetch call does raise a NameError before any data is fetched, but not on
the name bucket as the claim states: Python loads the callee first, and
fetch_paginated_data, being defined only after the __main__ block, is the
name the lookup fails on (bucket is likewise still undefined, but is
never reached). -/
theorem claim_C10_counterexample :
    evalFetchCall (globalsAtGuard dataPipelineModule)
      = some (PyExc.nameError "fetch_paginated_data") ∧
    evalFetchCall (globalsAtGuard dataPipelineModule) ≠ some (PyExc.nameError "bucket") :=
  ⟨rfl, by decide⟩

/-- C10 amended: the __main__ block invokes main before the statements that
bind bq_client, storage_client and bucket run (their definitions, like
those of the helper functions, follow the block); for every configured
endpoint the fetch call raises a NameError, on the not-yet-defined callee
fetch_paginated_data (bucket is likewise still unbound), the failure
audit attempt raises a NameError on the not-yet-defined log_audit (its
source_files local is likewise unbound) and is swallowed by the inner
except, and the run completes having fetched no data and written no
audit record. -/
theorem claim_C10 (endpoints : List String) :
    ("bucket" ∉ globalsAtGuard dataPipelineModule ∧
     "bq_client" ∉ globalsAtGuard dataPipelineModule ∧
     "storage_client" ∉ globalsAtGuard dataPipelineModule ∧
     "fetch_paginated_data" ∉ globalsAtGuard dataPipelineModule ∧
     "log_audit" ∉ globalsAtGuard dataPipelineModule ∧
     "bucket" ∈ allModuleNames dataPipelineModule) ∧
    scriptRun dataPipelineModule endpoints
      = endpoints.map (fun _ => EndpointOutcome.failedNoAudit
          (PyExc.nameError "fetch_paginated_data") (PyExc.nameError "log_audit")) ∧
    (scriptRun dataPipelineModule endpoints).all (fun o => !outcomeWroteAudit o) = true := by
  refine ⟨⟨by decide, by decide, by decide, by decide, by decide, by decide⟩, rfl, ?_⟩
  rw [List.all_eq_true]
  intro o ho
  rw [scriptRun] at ho
  obtain ⟨e, _, he⟩ := List.mem_map.mp ho
  rw [← he]
  rfl
